import Mathlib

/-!
Verification of the time-windowed retrieval, aggregation and summarization
subsystem of a Telegram group-summarizer bot.

The backing store (Supabase/Postgres) is embedded as a Lean list of rows kept
in insertion order; a query without an `order` clause returns the matching
rows in that stored order, and a query with `.order("timestamp", desc=False)`
returns them stably sorted by timestamp.  Timestamps are ISO-8601 UTC strings
in the source, compared lexicographically by the store; since that comparison
agrees with chronological order for a fixed format, timestamps are modelled as
integers (in minutes, so that `timedelta(minutes=m)` is subtraction by `m` and
`timedelta(days=d)` is subtraction by `d * 1440`).  The external generation
service (Groq) is modelled as a function from the submitted prompt to either a
generated text or a raised error.
-/

/-- One row of the `messages` table, as inserted by `Database.store_message`
(`database.py`).  All seven columns are set on every insert, so the fields are
total strings/integers. -/
structure Msg where
  group_id : Int
  message_id : Int
  user_id : Int
  username : String
  first_name : String
  message_text : String
  timestamp : Int
deriving DecidableEq, Repr

/-- The `messages` table in insertion order. -/
abbrev DB := List Msg

/-- One row of the `group_settings` table (`database.py`,
`update_group_setting`). -/
structure GroupSetting where
  group_id : Int
  lookback_minutes : Int
  updated_at : Int
  created_at : Int
deriving DecidableEq, Repr

/-- The `group_settings` table in insertion order. -/
abbrev Settings := List GroupSetting

/-- One row of the `summaries` table (the schema the spec ascribes to the
summary audit trail; nothing in `src/` ever writes or reads it). -/
structure SummaryRecord where
  group_id : Int
  summary_text : String
  message_count : Nat
  created_at : Int
deriving DecidableEq, Repr

/-! ### Configuration constants, from `config.py` -/

def MESSAGE_RETENTION_DAYS : Int := 7

def SUMMARY_DELETION_DAYS : Int := 14

def MAX_MESSAGES_PER_SUMMARY : Nat := 500

def DEFAULT_LOOKBACK_MINUTES : Int := 60

/-! ### Ordering relations used to model the store's sorts

Supabase `.order("timestamp", desc=False)` and Python's stable `sorted` are
both modelled with Mathlib's stable `List.insertionSort`. -/

/-- Ascending-timestamp order on message rows. -/
def tsLe (a b : Msg) : Prop := a.timestamp ≤ b.timestamp

instance : DecidableRel tsLe := fun a b => inferInstanceAs (Decidable (a.timestamp ≤ b.timestamp))

instance : IsTotal Msg tsLe := ⟨fun a b => Int.le_total a.timestamp b.timestamp⟩

instance : IsTrans Msg tsLe := ⟨fun _ _ _ => Int.le_trans⟩

/-- A per-user counter key: the `(username, first_name)` pair used by
`get_user_stats`. -/
abbrev UserKey := String × String

/-- Descending-count order on counter entries, the key
`lambda x: x[1]` with `reverse=True` of `get_user_stats`. -/
def countGe (a b : UserKey × Nat) : Prop := b.2 ≤ a.2

instance : DecidableRel countGe := fun a b => inferInstanceAs (Decidable (b.2 ≤ a.2))

instance : IsTotal (UserKey × Nat) countGe := ⟨fun a b => Nat.le_total b.2 a.2⟩

instance : IsTrans (UserKey × Nat) countGe := ⟨fun _ _ _ h h' => Nat.le_trans h' h⟩

/-! ### `Database` operations (`database.py`), success path -/

/-- The row filter of `get_recent_messages` and `get_user_stats`:
`.eq("group_id", group_id).gte("timestamp", cutoff_time.isoformat())`. -/
def inWindow (g cutoff : Int) (m : Msg) : Bool :=
  m.group_id == g && decide (cutoff ≤ m.timestamp)

/-- Embeds `Database.store_message`: inserts one row into `messages`. -/
def store_message (db : DB) (group_id message_id user_id : Int)
    (username first_name message_text : String) (timestamp : Int) : DB :=
  db ++ [{ group_id := group_id, message_id := message_id, user_id := user_id,
           username := username, first_name := first_name,
           message_text := message_text, timestamp := timestamp }]

/-- Embeds `Database.get_recent_messages`: rows of the group with
`timestamp ≥ now − minutes`, ordered by timestamp ascending.  There is no
limit clause in the source query. -/
def get_recent_messages (db : DB) (group_id now minutes : Int) : List Msg :=
  let cutoff := now - minutes
  List.insertionSort tsLe (db.filter (inWindow group_id cutoff))

/-- Embeds `Database.get_user_messages`: as `get_recent_messages` with an extra
`.eq("username", username)` filter. -/
def get_user_messages (db : DB) (group_id : Int) (username : String)
    (now minutes : Int) : List Msg :=
  let cutoff := now - minutes
  List.insertionSort tsLe
    (db.filter (fun m =>
      m.group_id == group_id && m.username == username && decide (cutoff ≤ m.timestamp)))

/-- One step of the Python dict update
`user_counts[key] = user_counts.get(key, 0) + 1`: an existing key keeps its
position, a new key is appended at the end (dict insertion order). -/
def bumpKey (k : UserKey) : List (UserKey × Nat) → List (UserKey × Nat)
  | [] => [(k, 1)]
  | (k', c) :: rest =>
      if k' == k then (k', c + 1) :: rest else (k', c) :: bumpKey k rest

/-- The counting loop of `get_user_stats`, producing the dict items in
first-appearance order. -/
def countUsers (rows : List Msg) : List (UserKey × Nat) :=
  rows.foldl (fun acc m => bumpKey (m.username, m.first_name) acc) []

/-- Embeds `Database.get_user_stats`: counts messages per `(username, first_name)`
key over the in-window rows, sorts the counts descending with Python's stable
`sorted(..., key=lambda x: x[1], reverse=True)`, and keeps the first `limit`
entries.  The underlying select has no `order` clause, so the rows arrive in
stored (insertion) order. -/
def get_user_stats (db : DB) (group_id now minutes : Int) (limit : Nat) :
    List (String × String × Nat) :=
  let cutoff := now - minutes
  let rows := db.filter (inWindow group_id cutoff)
  if rows = [] then []
  else
    ((List.insertionSort countGe (countUsers rows)).take limit).map
      (fun e => (e.1.1, e.1.2, e.2))

/-- Embeds `Database.get_group_setting`: the first matching row's
`lookback_minutes`, or the config default when no row matches. -/
def get_group_setting (s : Settings) (group_id : Int) : Int :=
  match s.find? (fun r => r.group_id == group_id) with
  | some r => r.lookback_minutes
  | none => DEFAULT_LOOKBACK_MINUTES

/-- Embeds `Database.update_group_setting`: read-then-branch upsert.  If a row for
the group exists it is updated in place (`update ... .eq("group_id", g)`
touches every matching row), otherwise a fresh row is inserted.  The source
performs no validation of `lookback_minutes`. -/
def update_group_setting (s : Settings) (group_id lookback_minutes now : Int) :
    Settings :=
  if s.any (fun r => r.group_id == group_id) then
    s.map (fun r =>
      if r.group_id == group_id then
        { r with lookback_minutes := lookback_minutes, updated_at := now }
      else r)
  else
    s ++ [{ group_id := group_id, lookback_minutes := lookback_minutes,
            updated_at := now, created_at := now }]

/-- Embeds `Database.cleanup_old_data`: deletes the rows with
`timestamp < now − days` (strict `lt` in the source query). -/
def cleanup_old_data (db : DB) (now days : Int) : DB :=
  let cutoff := now - days * 1440
  db.filter (fun m => !decide (m.timestamp < cutoff))

/-! ### `Database` operations, failure path

Every `Database` method wraps its body in `try/except`; the backend outcome
is modelled as an `Except` input.  On an exception the queries return `[]`
and the mutating methods return `None` — no exception of any kind is
re-raised to the caller. -/

/-- Runs `store_message` with its `try/except Exception: return None` boundary. -/
def store_message_run (backend : Except String DB) (group_id message_id user_id : Int)
    (username first_name message_text : String) (timestamp : Int) : Option DB :=
  match backend with
  | Except.ok db =>
      some (store_message db group_id message_id user_id username first_name
        message_text timestamp)
  | Except.error _ => none

/-- Runs `get_recent_messages` with its `try/except Exception: return []`
boundary. -/
def get_recent_messages_run (backend : Except String DB) (group_id now minutes : Int) :
    List Msg :=
  match backend with
  | Except.ok db => get_recent_messages db group_id now minutes
  | Except.error _ => []

/-- Runs `cleanup_old_data` with its `try/except Exception: return None`
boundary. -/
def cleanup_old_data_run (backend : Except String DB) (now days : Int) : Option DB :=
  match backend with
  | Except.ok db => some (cleanup_old_data db now days)
  | Except.error _ => none

/-! ### `Summarizer` (`summarizer.py`)

The Groq chat-completion call is modelled as `gen : String → Except String
String`, mapping the submitted prompt to the generated text or to the raised
error's message.  Both methods build their prompt, call the service inside
`try/except`, and return a plain string in every case. -/

/-- Python truthiness fallback `v or d` for an optional string: `None` and
`""` are falsy. -/
def pyOrStr (v : Option String) (d : String) : String :=
  match v with
  | none => d
  | some s => if s = "" then d else s

/-- The per-line author name of `summarize_messages`:
`msg.get('username') or msg.get('first_name', 'Unknown')`.  Both columns are
present on every stored row, so only the emptiness fallback of `or` can
fire. -/
def display_name (m : Msg) : String :=
  if m.username = "" then m.first_name else m.username

/-- One transcript line of `summarize_messages`. -/
def format_line (m : Msg) : String :=
  "[" ++ toString m.timestamp ++ "] " ++ display_name m ++ ": " ++ m.message_text

/-- The transcript block of `summarize_messages`. -/
def conversation (messages : List Msg) : String :=
  String.intercalate "\n" (messages.map format_line)

/-- The group prompt template of `summarize_messages`.  Every fetched message
is rendered into it; the template itself imposes no bound on the transcript
length. -/
def group_prompt (messages : List Msg) : String :=
  "You are a conversation summarizer for a Telegram group. Analyze the following "
    ++ toString messages.length
    ++ " messages and provide:\n\n1. A concise bullet-point summary of the main topics discussed\n2. Key decisions or action items (if any)\n3. Important announcements or highlights\n\nKeep it brief and informative. Use bullet points.\n\nCONVERSATION:\n"
    ++ conversation messages ++ "\n\nSUMMARY:"

/-- Embeds `Summarizer.summarize_messages`: empty input short-circuits to a sentinel
string; otherwise the prompt is submitted and either the wrapped summary or a
formatted error string is returned.  The function is total: no exception
reaches the caller. -/
def summarize_messages (messages : List Msg) (gen : String → Except String String) :
    String :=
  if messages = [] then "No messages found in the specified timeframe."
  else
    match gen (group_prompt messages) with
    | Except.ok summary =>
        "📊 **Summary of " ++ toString messages.length ++ " messages:**\n\n" ++ summary
    | Except.error e => "❌ Error generating summary: " ++ e

/-- The user prompt template of `summarize_user_messages`. -/
def user_prompt (username : String) (messages : List Msg) : String :=
  "Summarize the key contributions and topics discussed by user \x27" ++ username
    ++ "\x27 based on their " ++ toString messages.length ++ " messages:\n\n"
    ++ String.intercalate "\n" (messages.map (fun m => m.message_text))
    ++ "\n\nProvide a brief bullet-point summary of their main points."

/-- Embeds `Summarizer.summarize_user_messages`: same shape as
`summarize_messages` with the single-voice template. -/
def summarize_user_messages (username : String) (messages : List Msg)
    (gen : String → Except String String) : String :=
  if messages = [] then
    "No messages found from " ++ username ++ " in the specified timeframe."
  else
    match gen (user_prompt username messages) with
    | Except.ok summary =>
        "👤 **Summary for @" ++ username ++ " (" ++ toString messages.length
          ++ " messages):**\n\n" ++ summary
    | Except.error e => "❌ Error generating user summary: " ++ e

/-- Wraps `summarize_messages` with the `summaries` table threaded through, to make
persistence observable: the source method performs no store write, so the
table is returned unchanged. -/
def summarize_messages_persist (messages : List Msg)
    (gen : String → Except String String) (summaries : List SummaryRecord) :
    String × List SummaryRecord :=
  (summarize_messages messages gen, summaries)

/-- Wraps `summarize_user_messages` with the `summaries` table threaded through;
the source method performs no store write. -/
def summarize_user_messages_persist (username : String) (messages : List Msg)
    (gen : String → Except String String) (summaries : List SummaryRecord) :
    String × List SummaryRecord :=
  (summarize_user_messages username messages gen, summaries)

/-! ### Command handlers (`bot.py`)

Handlers are modelled as functions from their inputs to the list of reply
texts they send, in order.  The `Summarizer` class body defines exactly two
methods; Python attribute resolution on the instance is modelled by lookup in
that method list, and an absent attribute takes the handler's `except`
branch. -/

/-- The attributes defined by `class Summarizer` in `summarizer.py`. -/
def summarizer_attrs : List String := ["summarize_messages", "summarize_user_messages"]

/-- Whether `summarizer.<attr>` resolves without raising `AttributeError`. -/
def summarizer_has_attr (attr : String) : Bool := summarizer_attrs.contains attr

/-- Embeds `str.lstrip("@")` on the `/person` argument. -/
def stripAt (s : String) : String :=
  String.mk (s.toList.dropWhile (fun c => c == '@'))

/-- The `/catchup` handler: resolves the lookback window, fetches the recent
messages, and calls `summarizer.summarize(messages)` — an attribute the
`Summarizer` class does not define, so that call raises `AttributeError` and
the handler's `except` branch sends the generic error reply.  The
`summarizer_has_attr` branch keeps the would-be success reply for the case in
which the attribute did resolve to the group summarizer. -/
def catchup (settings : Settings) (db : DB) (chat_type : String) (group_id now : Int)
    (gen : String → Except String String) : List String :=
  if chat_type = "group" ∨ chat_type = "supergroup" then
    let lookback := get_group_setting settings group_id
    let messages := get_recent_messages db group_id now lookback
    if messages = [] then
      ["📭 No messages found in the last " ++ toString lookback ++ " minutes."]
    else if summarizer_has_attr "summarize" then
      ["⏳ Generating summary...",
        "📊 **Summary of last " ++ toString lookback ++ " minutes:**\n\n"
          ++ summarize_messages messages gen]
    else
      ["⏳ Generating summary...", "❌ An error occurred generating the summary."]
  else ["⚠️ This command only works in groups!"]

/-- The `/person` handler: same structure as `/catchup` with a per-user
fetch; the call `summarizer.summarize(messages)` likewise raises
`AttributeError`, caught by the `except` branch. -/
def person (settings : Settings) (db : DB) (chat_type : String) (group_id now : Int)
    (args : List String) (gen : String → Except String String) : List String :=
  if chat_type = "group" ∨ chat_type = "supergroup" then
    match args with
    | [] => ["⚠️ Usage: `/person @username`"]
    | arg :: _ =>
      let target := stripAt arg
      let lookback := get_group_setting settings group_id
      let messages := get_user_messages db group_id target now lookback
      if messages = [] then
        ["📭 No messages from @" ++ target ++ " in the last "
          ++ toString lookback ++ " minutes."]
      else if summarizer_has_attr "summarize" then
        ["📊 **Summary of @" ++ target ++ "\x27s messages:**\n\n"
          ++ summarize_messages messages gen]
      else
        ["❌ An error occurred."]
  else ["⚠️ This command only works in groups!"]

/-- The result of a message ingested by `message_handler` with the given
author fields: a missing or empty username is stored as the literal
`"unknown"`, a missing or empty first name as `"Unknown"`. -/
def ingested (group_id message_id user_id : Int) (username first_name : Option String)
    (text : String) (date : Int) : Msg :=
  { group_id := group_id, message_id := message_id, user_id := user_id,
    username := pyOrStr username "unknown",
    first_name := pyOrStr first_name "Unknown",
    message_text := text, timestamp := date }

/-- The `message_handler` of `bot.py`: stores every non-empty text message of
a group chat, applying the author-field fallbacks
`username or "unknown"` and `first_name or "Unknown"`. -/
def message_handler (db : DB) (chat_type : String) (chat_id message_id user_id : Int)
    (username first_name : Option String) (text : Option String) (date : Int) : DB :=
  if chat_type = "group" ∨ chat_type = "supergroup" then
    match text with
    | none => db
    | some t =>
        if t = "" then db
        else
          store_message db chat_id message_id user_id (pyOrStr username "unknown")
            (pyOrStr first_name "Unknown") t date
  else db

/-- The display rule of the `/who` handler:
`f"@{username}" if username else first_name`. -/
def who_display (username first_name : String) : String :=
  if username = "" then first_name else "@" ++ username

/-! ### Concrete rows used by witnesses and counterexamples -/

/-- A concrete stored message (alice, timestamp 5). -/
def msgAlice : Msg :=
  { group_id := 1, message_id := 11, user_id := 101, username := "alice",
    first_name := "Alice", message_text := "hello", timestamp := 5 }

/-- A concrete stored message (bob, timestamp 10). -/
def msgBob : Msg :=
  { group_id := 1, message_id := 12, user_id := 102, username := "bob",
    first_name := "Bob", message_text := "hey", timestamp := 10 }

/-- A concrete stored message used to populate large stores (timestamp 0). -/
def msgFill : Msg :=
  { group_id := 1, message_id := 0, user_id := 100, username := "carol",
    first_name := "Carol", message_text := "spam", timestamp := 0 }

/-- A concrete stored message young enough to survive retention
(timestamp 15000). -/
def msgLate : Msg :=
  { group_id := 1, message_id := 13, user_id := 103, username := "dan",
    first_name := "Dan", message_text := "late", timestamp := 15000 }

/-- A concrete prior group setting of 30 minutes. -/
def settingPrior : GroupSetting :=
  { group_id := 1, lookback_minutes := 30, updated_at := 0, created_at := 0 }

/-! ## Theorems -/

/-- Claim C1: for every group `G` and window `W`, `get_recent_messages`
returns exactly the stored messages of group `G` whose timestamp is at least
`now − W` minutes — the same multiset as the in-window filter of the store —
in ascending timestamp order, and a message is returned iff it is stored, is
of that group, and lies in the window. -/
theorem recent_messages_exact (db : DB) (g now w : Int) (m : Msg) :
    (get_recent_messages db g now w).Perm (db.filter (inWindow g (now - w)))
    ∧ List.Sorted tsLe (get_recent_messages db g now w)
    ∧ (m ∈ get_recent_messages db g now w
        ↔ m ∈ db ∧ m.group_id = g ∧ now - w ≤ m.timestamp) := by
  refine ⟨List.perm_insertionSort tsLe _, List.sorted_insertionSort tsLe _, ?_⟩
  simp [get_recent_messages, List.mem_insertionSort, List.mem_filter, inWindow,
    and_assoc]

/-- Claim C5, counterexample: when the backend fails, `get_recent_messages`
returns the same value as a successful query over an empty store — a
success-shaped result — and `store_message` returns `None` instead of
re-raising a `StoreUnavailable` error. -/
theorem store_errors_swallowed_cex :
    get_recent_messages_run (Except.error "connection refused") 1 100 60
        = get_recent_messages_run (Except.ok []) 1 100 60
    ∧ store_message_run (Except.error "connection refused") 1 11 101 "alice"
        "Alice" "hello" 5 = none :=
  ⟨rfl, rfl⟩

/-- Claim C5, amended: every backend error is caught at the store boundary
and converted into a sentinel return value — `[]` for queries, `None` for
mutations — so no backend exception (and no `StoreUnavailable` error, which
the code never defines) reaches the caller; in particular a failed query is
indistinguishable from a successful query over an empty store. -/
theorem store_errors_swallowed (e : String) (g now w gid mid uid : Int)
    (u f t : String) (ts now2 days : Int) :
    get_recent_messages_run (Except.error e) g now w = []
    ∧ get_recent_messages_run (Except.error e) g now w
        = get_recent_messages_run (Except.ok []) g now w
    ∧ store_message_run (Except.error e) gid mid uid u f t ts = none
    ∧ cleanup_old_data_run (Except.error e) now2 days = none :=
  ⟨rfl, rfl, rfl, rfl⟩

/-- Claim C7: `cleanup_old_data` keeps exactly the stored messages with
timestamp at least the cutoff `now − days` (strict `<` deletes the rest), and
a second run with the same or an earlier cutoff deletes nothing further. -/
theorem cleanup_exact_and_idempotent (db : DB) (m : Msg) (now days now2 days2 : Int)
    (h : now2 - days2 * 1440 ≤ now - days * 1440) :
    (m ∈ cleanup_old_data db now days
        ↔ m ∈ db ∧ ¬ m.timestamp < now - days * 1440)
    ∧ cleanup_old_data (cleanup_old_data db now days) now2 days2
        = cleanup_old_data db now days := by
  constructor
  · simp [cleanup_old_data, List.mem_filter]
  · have hpt : ∀ m : Msg,
        ((!decide (m.timestamp < now2 - days2 * 1440))
          && (!decide (m.timestamp < now - days * 1440)))
        = (!decide (m.timestamp < now - days * 1440)) := by
      intro m
      by_cases h1 : m.timestamp < now - days * 1440
      · simp [h1]
      · have h2 : ¬ m.timestamp < now2 - days2 * 1440 :=
          fun hc => h1 (lt_of_lt_of_le hc h)
        simp [h1, h2]
    simp [cleanup_old_data, List.filter_filter, hpt]

/-- Claim C7, witness: concrete two-message store swept at cutoff
`20000 − 7·1440 = 9920`; the late message survives and a repeated sweep is a
no-op. -/
theorem cleanup_exact_and_idempotent_witness :
    (msgLate ∈ cleanup_old_data [msgAlice, msgLate] 20000 7
        ↔ msgLate ∈ [msgAlice, msgLate] ∧ ¬ msgLate.timestamp < 20000 - 7 * 1440)
    ∧ cleanup_old_data (cleanup_old_data [msgAlice, msgLate] 20000 7) 20000 7
        = cleanup_old_data [msgAlice, msgLate] 20000 7 :=
  cleanup_exact_and_idempotent [msgAlice, msgLate] msgLate 20000 7 20000 7
    (by decide)

/-- Claim C8: on a non-empty message list, a generation failure (such as a
timeout) makes `summarize_messages` return the formatted error string; the
function is total, so the failure is never propagated to the caller. -/
theorem summarize_failure_safe (messages : List Msg) (e : String)
    (h : messages ≠ []) :
    summarize_messages messages (fun _ => Except.error e)
      = "❌ Error generating summary: " ++ e := by
  simp [summarize_messages, h]

/-- Claim C8, witness: a concrete one-message list with a timed-out
generation call. -/
theorem summarize_failure_safe_witness :
    summarize_messages [msgAlice] (fun _ => Except.error "Request timed out")
      = "❌ Error generating summary: " ++ "Request timed out" :=
  summarize_failure_safe [msgAlice] "Request timed out" (by decide)

/-- Claim C9, counterexample: a successful group-level summarization over a
concrete one-message list returns the wrapped summary but leaves the
(initially empty) summaries store empty — no `SummaryRecord` is persisted. -/
theorem summary_not_persisted_cex :
    summarize_messages_persist [msgAlice] (fun _ => Except.ok "- greeted") []
      = ("📊 **Summary of " ++ toString (1 : Nat) ++ " messages:**\n\n- greeted", []) :=
  rfl

/-- Claim C9, amended: no summarization ever persists a `SummaryRecord`:
both the group-level and the user-level operations leave the summaries store
exactly as it was, for every input and every generation outcome. -/
theorem summary_not_persisted (messages : List Msg)
    (gen : String → Except String String) (username : String)
    (summaries : List SummaryRecord) :
    (summarize_messages_persist messages gen summaries).2 = summaries
    ∧ (summarize_user_messages_persist username messages gen summaries).2
        = summaries :=
  ⟨rfl, rfl⟩

/-- Filtering a replicated list by a predicate its element satisfies keeps
every copy. -/
theorem filter_replicate_true {α : Type} (p : α → Bool) (a : α) (h : p a = true) :
    ∀ n : Nat, (List.replicate n a).filter p = List.replicate n a := by
  intro n
  induction n with
  | zero => rfl
  | succ n ih => simp [List.replicate_succ, List.filter_cons, h, ih]

/-- Claim C2, counterexample: a store holding 501 in-window messages of the
group makes `get_recent_messages` return 501 messages — more than
`MAX_MESSAGES_PER_SUMMARY = 500` — and the prompt renderer emits one
transcript line per returned message, so the rendered list also has 501
entries.  No cap is applied anywhere on the fetch. -/
theorem fetch_not_capped_cex :
    MAX_MESSAGES_PER_SUMMARY
        < (get_recent_messages (List.replicate 501 msgFill) 1 0 0).length
    ∧ ((get_recent_messages (List.replicate 501 msgFill) 1 0 0).map format_line).length
        = (get_recent_messages (List.replicate 501 msgFill) 1 0 0).length := by
  have hp : inWindow 1 (0 - 0) msgFill = true := by decide
  have hlen : (get_recent_messages (List.replicate 501 msgFill) 1 0 0).length = 501 := by
    simp only [get_recent_messages]
    rw [List.length_insertionSort, filter_replicate_true _ _ hp, List.length_replicate]
  constructor
  · rw [hlen]; decide
  · exact List.length_map _ _

/-- Claim C2, amended: the message fetch handed to the summarization
pipeline is not capped: `get_recent_messages` returns every in-window
message of the group (the configured `MAX_MESSAGES_PER_SUMMARY` is never
applied to it), and the prompt renderer produces exactly one transcript line
per fetched message, however many there are. -/
theorem fetch_not_capped (db : DB) (g now w : Int) (messages : List Msg) :
    (get_recent_messages db g now w).length
        = (db.filter (inWindow g (now - w))).length
    ∧ (messages.map format_line).length = messages.length := by
  constructor
  · simp [get_recent_messages, List.length_insertionSort]
  · simp [List.length_map]

/-- Claim C3, counterexample: updating group 1 from a stored valid setting
of 30 minutes to 0 minutes succeeds — no `ValidationError` exists anywhere
in the code — and a subsequent read returns 0, not the prior value. -/
theorem set_lookback_no_validation_cex :
    update_group_setting [settingPrior] 1 0 5
        = [{ group_id := 1, lookback_minutes := 0, updated_at := 5, created_at := 0 }]
    ∧ get_group_setting (update_group_setting [settingPrior] 1 0 5) 1 = 0 := by
  constructor <;> rfl

/-- In the update branch of the upsert, the first matching row afterwards
carries the new value. -/
theorem get_setting_after_update (g minutes now : Int) :
    ∀ s : Settings, s.any (fun r => r.group_id == g) = true →
      get_group_setting
        (s.map (fun r =>
          if r.group_id == g then
            { r with lookback_minutes := minutes, updated_at := now }
          else r)) g = minutes := by
  intro s
  induction s with
  | nil => intro h; simp at h
  | cons r rest ih =>
    intro h
    by_cases hr : r.group_id = g
    · simp [get_group_setting, List.find?, hr]
    · have hr' : (r.group_id == g) = false := by simp [hr]
      simp only [List.any_cons, hr', Bool.false_or] at h
      simpa [get_group_setting, List.find?, hr'] using ih h

/-- In the insert branch of the upsert, the appended row is the first match
for its group. -/
theorem get_setting_after_insert (g minutes now : Int) :
    ∀ s : Settings, s.any (fun r => r.group_id == g) = false →
      get_group_setting
        (s ++ [{ group_id := g, lookback_minutes := minutes,
                 updated_at := now, created_at := now }]) g = minutes := by
  intro s
  induction s with
  | nil => intro _; simp [get_group_setting, List.find?]
  | cons r rest ih =>
    intro h
    simp only [List.any_cons, Bool.or_eq_false_iff] at h
    simpa [get_group_setting, List.find?, h.1] using ih h.2

/-- Claim C3, amended: `update_group_setting` performs no validation of the
minutes value: for every value, including zero and negative minutes, the
upsert succeeds and a subsequent `get_group_setting` for the group returns
the newly written value, replacing any prior valid setting. -/
theorem update_setting_unvalidated (s : Settings) (g minutes now : Int) :
    get_group_setting (update_group_setting s g minutes now) g = minutes := by
  rw [update_group_setting]
  cases hany : s.any (fun r => r.group_id == g) with
  | true => simpa [hany] using get_setting_after_update g minutes now s hany
  | false => simpa [hany] using get_setting_after_insert g minutes now s hany

/-- The stored username of an ingested message is never the empty string:
`username or "unknown"` yields either a non-empty username or the literal
`"unknown"`. -/
theorem pyOrStr_ne_empty (v : Option String) : pyOrStr v "unknown" ≠ "" := by
  cases v with
  | none => decide
  | some s => by_cases hs : s = "" <;> simp [pyOrStr, hs]

/-- Claim C6, counterexample: an author with no username and first name
`"Alice"` is ingested with stored username `"unknown"`; the display identity
used by summarization is `"unknown"` and the `/who` display is
`"@unknown"` — the first name is never used, contradicting the claimed
username → first-name → placeholder chain. -/
theorem display_fallback_cex :
    (message_handler [] "group" 1 21 201 none (some "Alice") (some "hi") 0).map
        display_name = ["unknown"]
    ∧ (message_handler [] "group" 1 21 201 none (some "Alice") (some "hi") 0).map
        (fun m => who_display m.username m.first_name) = ["@unknown"] := by
  constructor <;> rfl

/-- Claim C6, amended: the fallback is applied once, at ingestion: a missing
or empty username is stored as the literal `"unknown"` (and a missing first
name as `"Unknown"`), so the stored username is never empty, and the display
identity used by ranking and summarization is always the stored username —
the literal `"unknown"` placeholder, not the first name, when the author has
no username.  No author is dropped: every ingested group text message is
appended to the store with a non-empty identity. -/
theorem display_fallback (db : DB) (g mid uid ts : Int)
    (username first_name : Option String) (t : String) (ht : t ≠ "") :
    message_handler db "group" g mid uid username first_name (some t) ts
        = db ++ [ingested g mid uid username first_name t ts]
    ∧ (ingested g mid uid username first_name t ts).username ≠ ""
    ∧ display_name (ingested g mid uid username first_name t ts)
        = pyOrStr username "unknown"
    ∧ (username = none →
        display_name (ingested g mid uid username first_name t ts) = "unknown") := by
  refine ⟨?_, pyOrStr_ne_empty username, ?_, ?_⟩
  · simp [message_handler, ht, store_message, ingested]
  · simp [display_name, ingested, pyOrStr_ne_empty username]
  · intro hu
    subst hu
    simp [display_name, ingested, pyOrStr]

/-- Claim C6, witness: concrete ingestion of a message whose author has no
username and first name `"Alice"`. -/
theorem display_fallback_witness :
    message_handler [] "group" 1 21 201 none (some "Alice") (some "hi") 0
        = [] ++ [ingested 1 21 201 none (some "Alice") "hi" 0]
    ∧ (ingested 1 21 201 none (some "Alice") "hi" 0).username ≠ ""
    ∧ display_name (ingested 1 21 201 none (some "Alice") "hi" 0)
        = pyOrStr none "unknown"
    ∧ ((none : Option String) = none →
        display_name (ingested 1 21 201 none (some "Alice") "hi" 0) = "unknown") :=
  display_fallback [] 1 21 201 0 none (some "Alice") "hi" (by decide)

/-- Bumping an existing dict key keeps it in place with its count raised. -/
theorem bumpKey_cons_eq {k k' : UserKey} {c : Nat} {rest : List (UserKey × Nat)}
    (h : k' = k) : bumpKey k ((k', c) :: rest) = (k', c + 1) :: rest := by
  simp [bumpKey, h]

/-- Bumping a key absent from the head entry recurses into the tail. -/
theorem bumpKey_cons_ne {k k' : UserKey} {c : Nat} {rest : List (UserKey × Nat)}
    (h : ¬ k' = k) : bumpKey k ((k', c) :: rest) = (k', c) :: bumpKey k rest := by
  simp [bumpKey, h]

/-- A key present after a dict bump is either the bumped key or was already
present. -/
theorem mem_keys_bumpKey {q k : UserKey} :
    ∀ acc : List (UserKey × Nat), q ∈ (bumpKey k acc).map Prod.fst →
      q = k ∨ q ∈ acc.map Prod.fst := by
  intro acc
  induction acc with
  | nil =>
    intro h
    left
    simpa [bumpKey] using h
  | cons p rest ih =>
    rcases p with ⟨k', c⟩
    intro h
    by_cases hk : k' = k
    · right
      rw [bumpKey_cons_eq hk] at h
      simpa using h
    · rw [bumpKey_cons_ne hk] at h
      rcases (by simpa using h : q = k' ∨ q ∈ (bumpKey k rest).map Prod.fst) with h1 | h1
      · right
        simp [h1]
      · rcases ih h1 with h2 | h2
        · exact Or.inl h2
        · right
          simp [h2]

/-- Every key counted by the `get_user_stats` loop comes from the counted
rows (or from the starting accumulator). -/
theorem countUsers_key_from_rows :
    ∀ (rows : List Msg) (acc : List (UserKey × Nat)) (p : UserKey × Nat),
      p ∈ rows.foldl (fun acc m => bumpKey (m.username, m.first_name) acc) acc →
      p.1 ∈ acc.map Prod.fst
        ∨ ∃ m ∈ rows, m.username = p.1.1 ∧ m.first_name = p.1.2 := by
  intro rows
  induction rows with
  | nil =>
    intro acc p h
    exact Or.inl (List.mem_map_of_mem Prod.fst (by simpa using h))
  | cons m rows ih =>
    intro acc p h
    rw [List.foldl_cons] at h
    rcases ih _ p h with h1 | h1
    · rcases mem_keys_bumpKey _ h1 with h2 | h2
      · right
        exact ⟨m, List.mem_cons_self _ _, by simp [h2], by simp [h2]⟩
      · exact Or.inl h2
    · rcases h1 with ⟨m', hm', hu, hf⟩
      exact Or.inr ⟨m', List.mem_cons_of_mem _ hm', hu, hf⟩

/-- Claim C4, counterexample: two stores holding the same message set (each
a permutation of the other, with tied counts) produce different rankings:
the stats select has no ordering clause, so ties are broken by stored order,
not by the claimed ascending-timestamp order of the underlying query. -/
theorem rank_not_set_deterministic_cex :
    List.Perm [msgBob, msgAlice] [msgAlice, msgBob]
    ∧ get_user_stats [msgBob, msgAlice] 1 10 10 10
        ≠ get_user_stats [msgAlice, msgBob] 1 10 10 10 := by
  constructor
  · exact List.Perm.swap msgAlice msgBob []
  · decide

/-- Claim C4, amended: `get_user_stats` returns at most `limit` entries,
ordered by message count descending, and every returned identity key comes
from a stored in-window message of the group; it is a deterministic function
of the stored row *sequence*, with ties between equal counts broken by
first-appearance order in that (insertion-ordered, not timestamp-ordered)
sequence, so identical message sets stored in different orders may order
tied keys differently. -/
theorem user_stats_sound (db : DB) (g now w : Int) (limit : Nat)
    (e : String × String × Nat) (he : e ∈ get_user_stats db g now w limit) :
    (get_user_stats db g now w limit).length ≤ limit
    ∧ List.Sorted (fun a b : String × String × Nat => b.2.2 ≤ a.2.2)
        (get_user_stats db g now w limit)
    ∧ ∃ m ∈ db, m.group_id = g ∧ now - w ≤ m.timestamp
        ∧ m.username = e.1 ∧ m.first_name = e.2.1 := by
  by_cases hrows : db.filter (inWindow g (now - w)) = []
  · simp only [get_user_stats, hrows] at he
    simp at he
  · have hsort := List.sorted_insertionSort countGe
      (countUsers (db.filter (inWindow g (now - w))))
    refine ⟨?_, ?_, ?_⟩
    · simp only [get_user_stats, if_neg hrows]
      rw [List.length_map]
      exact List.length_take_le _ _
    · simp only [get_user_stats, if_neg hrows]
      refine List.pairwise_map.mpr ?_
      exact (hsort.sublist (List.take_sublist _ _)).imp (fun h => h)
    · simp only [get_user_stats, if_neg hrows] at he
      rcases List.mem_map.mp he with ⟨p, hp, hfe⟩
      have hpS : p ∈ List.insertionSort countGe
          (countUsers (db.filter (inWindow g (now - w)))) :=
        List.mem_of_mem_take hp
      have hpC : p ∈ countUsers (db.filter (inWindow g (now - w))) :=
        (List.mem_insertionSort countGe).mp hpS
      rcases countUsers_key_from_rows _ [] p hpC with h0 | h0
      · simp at h0
      · rcases h0 with ⟨m, hmF, hu, hf⟩
        rcases List.mem_filter.mp hmF with ⟨hm, hcond⟩
        have hg : m.group_id = g ∧ now - w ≤ m.timestamp := by
          simpa [inWindow] using hcond
        subst hfe
        exact ⟨m, hm, hg.1, hg.2, hu, hf⟩

/-- Claim C4, witness: the amended properties at a concrete two-user store
with tied counts. -/
theorem user_stats_sound_witness :
    ("bob", "Bob", 1) ∈ get_user_stats [msgBob, msgAlice] 1 10 10 10
    ∧ ((get_user_stats [msgBob, msgAlice] 1 10 10 10).length ≤ 10
      ∧ List.Sorted (fun a b : String × String × Nat => b.2.2 ≤ a.2.2)
          (get_user_stats [msgBob, msgAlice] 1 10 10 10)
      ∧ ∃ m ∈ [msgBob, msgAlice], m.group_id = 1 ∧ 10 - 10 ≤ m.timestamp
          ∧ m.username = (("bob", "Bob", 1) : String × String × Nat).1
          ∧ m.first_name = (("bob", "Bob", 1) : String × String × Nat).2.1) :=
  ⟨by decide,
    user_stats_sound [msgBob, msgAlice] 1 10 10 10 ("bob", "Bob", 1) (by decide)⟩

/-- Claim C10: the `Summarizer` class defines only `summarize_messages` and
`summarize_user_messages`, so for every non-empty in-window message set the
`summarizer.summarize(messages)` calls of `/catchup` and `/person` raise
`AttributeError`, both handlers take their `except` branch and reply with
their generic error message, and the summarization methods are never
reached from them. -/
theorem handlers_hit_missing_attr (settings : Settings) (db : DB) (g now : Int)
    (gen : String → Except String String) (arg : String)
    (h1 : get_recent_messages db g now (get_group_setting settings g) ≠ [])
    (h2 : get_user_messages db g (stripAt arg) now (get_group_setting settings g) ≠ []) :
    catchup settings db "group" g now gen
        = ["⏳ Generating summary...", "❌ An error occurred generating the summary."]
    ∧ person settings db "group" g now [arg] gen = ["❌ An error occurred."] := by
  have hattr : summarizer_has_attr "summarize" = false := by decide
  constructor
  · simp [catchup, h1, hattr]
  · simp [person, h2, hattr]

/-- Claim C10, witness: a concrete group store with one in-window message;
both handlers reply with their generic error text even though the
generation collaborator would have succeeded. -/
theorem handlers_hit_missing_attr_witness :
    (get_recent_messages [msgAlice] 1 10 (get_group_setting [] 1) ≠ []
      ∧ get_user_messages [msgAlice] 1 (stripAt "@alice") 10 (get_group_setting [] 1) ≠ [])
    ∧ catchup [] [msgAlice] "group" 1 10 (fun _ => Except.ok "- a summary")
        = ["⏳ Generating summary...", "❌ An error occurred generating the summary."]
    ∧ person [] [msgAlice] "group" 1 10 ["@alice"] (fun _ => Except.ok "- a summary")
        = ["❌ An error occurred."] :=
  ⟨⟨by decide, by decide⟩,
    handlers_hit_missing_attr [] [msgAlice] 1 10 (fun _ => Except.ok "- a summary")
      "@alice" (by decide) (by decide)⟩
